import Mathlib

/-!
Verification of the typed configuration model and the cooperative
execution-control scheduler of the OSRS-CV-Bot repository.

The Python sources are shallowly embedded: Python values that flow through
the JSON codecs are modelled by `JVal`, Python numbers by `Int`/`Rat`
(every Python float value that the modelled code manipulates is a rational,
and the modelled operations on them are exact), and fallible Python code by
`Except PyErr`.  Paths that the source can only reach with inputs outside
the intended domain of a routine (for example `str()` applied to a
non-string, or `int("…", 16)` applied to a string that was not produced by
`to_hex`) are mapped to the distinguished error `PyErr.unmodelled`.
-/

namespace OSRS

/-- Runtime-typed Python primitive (bool, int, float, str).  The four
constructors model the four primitive runtime types that
`BotConfigMixin.import_config` distinguishes with `isinstance`. -/
inductive PyPrim where
  | pbool (b : Bool)
  | pint (n : Int)
  | pfloat (q : Rat)
  | pstr (s : String)
deriving DecidableEq, Repr

/-- JSON-serializable Python value: a primitive, a list/tuple, or a dict
with string keys (modelled as an ordered association list with unique
keys, as produced by Python dicts). -/
inductive JVal where
  | prim (p : PyPrim)
  | list (xs : List JVal)
  | obj (kvs : List (String × JVal))
deriving Repr

mutual

def JVal.decEq : (a b : JVal) → Decidable (a = b)
  | .prim a, .prim b =>
    match (inferInstanceAs (DecidableEq PyPrim)) a b with
    | isTrue h => isTrue (h ▸ rfl)
    | isFalse h => isFalse (fun hh => h (JVal.prim.inj hh))
  | .prim _, .list _ => isFalse (fun h => JVal.noConfusion h)
  | .prim _, .obj _ => isFalse (fun h => JVal.noConfusion h)
  | .list _, .prim _ => isFalse (fun h => JVal.noConfusion h)
  | .list xs, .list ys =>
    match JVal.decEqList xs ys with
    | isTrue h => isTrue (h ▸ rfl)
    | isFalse h => isFalse (fun hh => h (JVal.list.inj hh))
  | .list _, .obj _ => isFalse (fun h => JVal.noConfusion h)
  | .obj _, .prim _ => isFalse (fun h => JVal.noConfusion h)
  | .obj _, .list _ => isFalse (fun h => JVal.noConfusion h)
  | .obj xs, .obj ys =>
    match JVal.decEqObj xs ys with
    | isTrue h => isTrue (h ▸ rfl)
    | isFalse h => isFalse (fun hh => h (JVal.obj.inj hh))

def JVal.decEqList : (xs ys : List JVal) → Decidable (xs = ys)
  | [], [] => isTrue rfl
  | [], _ :: _ => isFalse (fun h => List.noConfusion h)
  | _ :: _, [] => isFalse (fun h => List.noConfusion h)
  | x :: xs, y :: ys =>
    match JVal.decEq x y, JVal.decEqList xs ys with
    | isTrue h₁, isTrue h₂ => isTrue (by rw [h₁, h₂])
    | isFalse h₁, _ => isFalse (fun hh => h₁ (List.cons.inj hh).1)
    | _, isFalse h₂ => isFalse (fun hh => h₂ (List.cons.inj hh).2)

def JVal.decEqObj : (xs ys : List (String × JVal)) → Decidable (xs = ys)
  | [], [] => isTrue rfl
  | [], _ :: _ => isFalse (fun h => List.noConfusion h)
  | _ :: _, [] => isFalse (fun h => List.noConfusion h)
  | (k₁, v₁) :: xs, (k₂, v₂) :: ys =>
    match (inferInstanceAs (DecidableEq String)) k₁ k₂, JVal.decEq v₁ v₂, JVal.decEqObj xs ys with
    | isTrue h₀, isTrue h₁, isTrue h₂ => isTrue (by rw [h₀, h₁, h₂])
    | isFalse h₀, _, _ =>
      isFalse (fun hh => h₀ (congrArg Prod.fst (List.cons.inj hh).1))
    | _, isFalse h₁, _ =>
      isFalse (fun hh => h₁ (congrArg Prod.snd (List.cons.inj hh).1))
    | _, _, isFalse h₂ => isFalse (fun hh => h₂ (List.cons.inj hh).2)

end

instance : DecidableEq JVal := JVal.decEq

/-- Python exception taxonomy reached by the modelled code. -/
inductive PyErr where
  | valueError (msg : String)
  | typeError (msg : String)
  | keyError (msg : String)
  | indexError
  | unmodelled (msg : String)
deriving DecidableEq, Repr

/-- Python dict read `d.get(k)`: first binding of the key, if any. -/
def dictGet (kvs : List (String × JVal)) (k : String) : Option JVal :=
  (kvs.find? (fun kv => kv.1 == k)).map (fun kv => kv.2)

/-- Python dict read `d[k]`: like `dictGet` but raising `KeyError`. -/
def dictGetE (kvs : List (String × JVal)) (k : String) : Except PyErr JVal :=
  match dictGet kvs k with
  | some v => .ok v
  | none => .error (.keyError k)

/-- Python membership test `k in d` on a dict. -/
def dictHas (kvs : List (String × JVal)) (k : String) : Bool :=
  (dictGet kvs k).isSome

/-- Python truthiness `bool(v)` of the modelled value shapes. -/
def pyBool : JVal → Bool
  | .prim (.pbool b) => b
  | .prim (.pint n) => n != 0
  | .prim (.pfloat q) => q != 0
  | .prim (.pstr s) => s != ""
  | .list xs => !xs.isEmpty
  | .obj kvs => !kvs.isEmpty

/-- Python truncation toward zero, as performed by `int()` on a float. -/
def pyTrunc (q : Rat) : Int :=
  if 0 ≤ q then ⌊q⌋ else ⌈q⌉

/-- Python `float(v)`.  String parsing is outside the modelled domain. -/
def pyFloat : JVal → Except PyErr Rat
  | .prim (.pfloat q) => .ok q
  | .prim (.pint n) => .ok n
  | .prim (.pbool b) => .ok (if b then 1 else 0)
  | .prim (.pstr _) => .error (.unmodelled "float() of a string")
  | _ => .error (.typeError "float() argument")

/-- Python `int(v)`.  String parsing is outside the modelled domain. -/
def pyInt : JVal → Except PyErr Int
  | .prim (.pint n) => .ok n
  | .prim (.pbool b) => .ok (if b then 1 else 0)
  | .prim (.pfloat q) => .ok (pyTrunc q)
  | .prim (.pstr _) => .error (.unmodelled "int() of a string")
  | _ => .error (.typeError "int() argument")

/-- Python `str(v)` restricted to values that already are strings; the
`repr`-based conversion of other values is outside the modelled domain. -/
def pyStr : JVal → Except PyErr String
  | .prim (.pstr s) => .ok s
  | _ => .error (.unmodelled "str() of a non-string")

/-- Reading a Python number stored verbatim (no conversion applied by the
source), e.g. the endpoints stored by `RangeParam.__init__`. -/
def asNum : JVal → Except PyErr Rat
  | .prim (.pfloat q) => .ok q
  | .prim (.pint n) => .ok n
  | .prim (.pbool b) => .ok (if b then 1 else 0)
  | _ => .error (.unmodelled "non-numeric value stored in a numeric slot")

/-- Sequential fallible map, as a Python for-loop that builds a list and
propagates the first exception. -/
def mapE (f : α → Except PyErr β) : List α → Except PyErr (List β)
  | [] => .ok []
  | x :: xs => do
    let y ← f x
    let ys ← mapE f xs
    .ok (y :: ys)

/-- Reading a Python int stored verbatim. -/
def asInt : JVal → Except PyErr Int
  | .prim (.pint n) => .ok n
  | _ => .error (.unmodelled "non-int value stored in an int slot")

/- ----------------------------------------------------------------- -/
/- RGBParam (src/bots/core/cfg_types.py)                              -/
/- ----------------------------------------------------------------- -/

/-- `RGBParam`: three channels, each an integer in [0,255].  The range
invariant enforced by `RGBParam.__init__` is carried in the type. -/
structure RGBParam where
  r : Fin 256
  g : Fin 256
  b : Fin 256
deriving DecidableEq, Repr

/-- `RGBParam.__init__`: validates that every channel is in [0,255],
raising `ValueError` otherwise. -/
def RGBParam.init (r g b : Int) : Except PyErr RGBParam :=
  if h : 0 ≤ r ∧ r ≤ 255 ∧ 0 ≤ g ∧ g ≤ 255 ∧ 0 ≤ b ∧ b ≤ 255 then
    .ok ⟨⟨r.toNat, by omega⟩, ⟨g.toNat, by omega⟩, ⟨b.toNat, by omega⟩⟩
  else
    .error (.valueError "RGB values must be between 0 and 255")

/-- Upper-case hex digit for a value below 16 (`"{:02X}".format`). -/
def hexDigitChar (n : Nat) : Char :=
  if n < 10 then Char.ofNat (48 + n) else Char.ofNat (55 + n)

/-- The two upper-case hex digits of a byte. -/
def byteHexChars (v : Fin 256) : List Char :=
  [hexDigitChar (v.val / 16), hexDigitChar (v.val % 16)]

/-- `RGBParam.to_hex`: the string `#RRGGBB`. -/
def RGBParam.to_hex (c : RGBParam) : String :=
  String.mk ('#' :: (byteHexChars c.r ++ byteHexChars c.g ++ byteHexChars c.b))

/-- Hex digit value accepted by `int(_, 16)` on a single digit char. -/
def hexDigitVal (c : Char) : Option Nat :=
  if 48 ≤ c.toNat ∧ c.toNat ≤ 57 then some (c.toNat - 48)
  else if 65 ≤ c.toNat ∧ c.toNat ≤ 70 then some (c.toNat - 55)
  else if 97 ≤ c.toNat ∧ c.toNat ≤ 102 then some (c.toNat - 87)
  else none

/-- Value of a two-digit hex pair, as computed by `int(s[i:i+2], 16)`. -/
def hexPairVal (c₁ c₂ : Char) : Option Nat :=
  match hexDigitVal c₁, hexDigitVal c₂ with
  | some h, some l => some (16 * h + l)
  | _, _ => none

/-- Parse of the six hex characters remaining after the `#` strip in
`RGBParam.from_hex`: a length check, then the three hex pairs, then the
validating constructor. -/
def RGBParam.fromHexChars : List Char → Except PyErr RGBParam
  | [c₁, c₂, c₃, c₄, c₅, c₆] =>
    match hexPairVal c₁ c₂, hexPairVal c₃ c₄, hexPairVal c₅ c₆ with
    | some r, some g, some b => RGBParam.init r g b
    | _, _, _ => .error (.valueError "Invalid hex color format")
  | _ => .error (.valueError "Hex color must be 6 characters long")

/-- `RGBParam.from_hex`: strips every leading `#` (Python `lstrip`),
requires exactly six remaining characters, parses the three hex pairs and
delegates to the validating constructor. -/
def RGBParam.from_hex (s : String) : Except PyErr RGBParam :=
  RGBParam.fromHexChars (s.toList.dropWhile (fun c => c == '#'))

/-- `RGBParam.from_tuple`: requires exactly three elements and delegates
to the validating constructor (integer channels; other channel types are
outside the modelled domain). -/
def RGBParam.from_tuple (xs : List JVal) : Except PyErr RGBParam :=
  match xs with
  | [a, b, c] => do
    let r ← asInt a
    let g ← asInt b
    let bl ← asInt c
    RGBParam.init r g bl
  | _ => .error (.valueError "RGB tuple must contain exactly 3 values")

/-- `RGBParam.load`: list/tuple of three ints, or a hex string. -/
def RGBParam.load : JVal → Except PyErr RGBParam
  | .list xs =>
    if xs.length == 3 then RGBParam.from_tuple xs
    else .error (.valueError "RGB value must be a list or tuple of three integers or a hex string")
  | .prim (.pstr s) => RGBParam.from_hex s
  | _ => .error (.valueError "RGB value must be a list or tuple of three integers or a hex string")

/-- `RGBParam.to_json`: tagged object with redundant `rgb` and `hex`. -/
def RGBParam.to_json (c : RGBParam) : JVal :=
  .obj [("type", .prim (.pstr "RGB")),
        ("value", .obj [
          ("rgb", .list [.prim (.pint c.r.val), .prim (.pint c.g.val), .prim (.pint c.b.val)]),
          ("hex", .prim (.pstr c.to_hex))])]

/-- `RGBParam.from_json`: checks the type tag, prefers the `hex` key of
an object value over `rgb`, and falls back to `load` otherwise. -/
def RGBParam.from_json (data : JVal) : Except PyErr RGBParam :=
  match data with
  | .obj kvs =>
    match dictGet kvs "type" with
    | some (.prim (.pstr "RGB")) => do
      let value ← dictGetE kvs "value"
      match value with
      | .obj vkvs =>
        match dictGet vkvs "hex" with
        | some (.prim (.pstr h)) => RGBParam.from_hex h
        | some _ => .error (.unmodelled "hex entry is not a string")
        | none =>
          match dictGet vkvs "rgb" with
          | some (.list xs) => RGBParam.from_tuple xs
          | some _ => .error (.unmodelled "rgb entry is not a sequence")
          | none => RGBParam.load value
      | _ => RGBParam.load value
    | _ => .error (.valueError "Expected type RGB")
  | _ => .error (.unmodelled "from_json applied to a non-dict")

/- ----------------------------------------------------------------- -/
/- RangeParam (src/bots/core/cfg_types.py)                            -/
/- ----------------------------------------------------------------- -/

/-- `RangeParam`: an ordered pair of numbers; no `min <= max` invariant
is enforced, matching the source constructor. -/
structure RangeParam where
  min_value : Rat
  max_value : Rat
deriving DecidableEq, Repr

/-- `RangeParam.load`: requires a list of exactly two numbers. -/
def RangeParam.load : JVal → Except PyErr RangeParam
  | .list [a, b] => do
    let lo ← asNum a
    let hi ← asNum b
    .ok ⟨lo, hi⟩
  | .list _ => .error (.valueError "Range value must be a list of two floats.")
  | _ => .error (.unmodelled "len() of a non-list")

/-- `RangeParam.to_json`: tagged pair `[min, max]`. -/
def RangeParam.to_json (r : RangeParam) : JVal :=
  .obj [("type", .prim (.pstr "Range")),
        ("value", .list [.prim (.pfloat r.min_value), .prim (.pfloat r.max_value)])]

/-- `RangeParam.from_json`: checks the type tag, then delegates to `load`. -/
def RangeParam.from_json (data : JVal) : Except PyErr RangeParam :=
  match data with
  | .obj kvs =>
    match dictGet kvs "type" with
    | some (.prim (.pstr "Range")) => do
      let value ← dictGetE kvs "value"
      RangeParam.load value
    | _ => .error (.valueError "Expected type Range")
  | _ => .error (.unmodelled "from_json applied to a non-dict")

/- ----------------------------------------------------------------- -/
/- BreakCfgParam (src/bots/core/cfg_types.py)                         -/
/- ----------------------------------------------------------------- -/

/-- `BreakCfgParam`: a duration range plus a break chance stored as a
float (the constructor coerces its second argument with `float`). -/
structure BreakCfgParam where
  break_duration : RangeParam
  break_chance : Rat
deriving DecidableEq, Repr

/-- `BreakCfgParam.load`: `[duration-range, chance]`; the chance is
coerced with `float`, failures becoming a `ValueError`. -/
def BreakCfgParam.load : JVal → Except PyErr BreakCfgParam
  | .list [d, c] => do
    let dur ← RangeParam.load d
    match pyFloat c with
    | .ok chance => .ok ⟨dur, chance⟩
    | .error _ => .error (.valueError "BreakCfg break_chance must be a float")
  | .list _ =>
    .error (.valueError "BreakCfg value must be a list of two elements: [break_duration, break_chance].")
  | _ => .error (.unmodelled "len() of a non-list")

/-- `BreakCfgParam.should_break`: one uniform(0,1) draw (passed here as
the argument `draw`) compared against the raw stored chance. -/
def BreakCfgParam.should_break (cfg : BreakCfgParam) (draw : Rat) : Bool :=
  draw < cfg.break_chance

/-- `BreakCfgParam.to_json`: tagged object with a nested tagged Range. -/
def BreakCfgParam.to_json (cfg : BreakCfgParam) : JVal :=
  .obj [("type", .prim (.pstr "BreakCfg")),
        ("value", .obj [
          ("break_duration", cfg.break_duration.to_json),
          ("break_chance", .prim (.pfloat cfg.break_chance))])]

/-- `BreakCfgParam.from_json`: checks the type tag; an object value is
decoded field-wise (the chance going through the `float` coercion of the
constructor), anything else falls back to `load`. -/
def BreakCfgParam.from_json (data : JVal) : Except PyErr BreakCfgParam :=
  match data with
  | .obj kvs =>
    match dictGet kvs "type" with
    | some (.prim (.pstr "BreakCfg")) => do
      let value ← dictGetE kvs "value"
      match value with
      | .obj vkvs => do
        let dj ← dictGetE vkvs "break_duration"
        let dur ← RangeParam.from_json dj
        let cj ← dictGetE vkvs "break_chance"
        let chance ← pyFloat cj
        .ok ⟨dur, chance⟩
      | _ => BreakCfgParam.load value
    | _ => .error (.valueError "Expected type BreakCfg")
  | _ => .error (.unmodelled "from_json applied to a non-dict")

/- ----------------------------------------------------------------- -/
/- WaypointParam (src/bots/core/cfg_types.py)                         -/
/- ----------------------------------------------------------------- -/

/-- `WaypointParam`: the five slots stored by `__init__`.  The source
constructor performs no conversion or validation on them, so the slots
hold whatever Python values the parser put there. -/
structure WaypointParam where
  x : JVal
  y : JVal
  z : JVal
  chunk : JVal
  tolerance : JVal
deriving DecidableEq, Repr

/-- `WaypointParam.load`: evaluation order of the source is kept — the
first element is inspected (`value[0]`, an `IndexError` on an empty
list) before any length check runs.  Shapes: `[[x,y,z], chunk, tol]`,
`[[x,y,z], chunk]` and the flat `[x,y,z,chunk]`. -/
def WaypointParam.load : JVal → Except PyErr WaypointParam
  | .list [] => .error .indexError
  | .list (v₀ :: rest) =>
    match v₀ with
    | .list coords =>
      match coords with
      | [cx, cy, cz] =>
        match rest with
        | [] => .error (.valueError "Waypoint must include chunk value.")
        | [chunk] => .ok ⟨cx, cy, cz, chunk, .prim (.pint 5)⟩
        | chunk :: tol :: _ => .ok ⟨cx, cy, cz, chunk, tol⟩
      | _ => .error (.valueError "Waypoint coordinates must include x, y, and z values.")
    | _ =>
      match v₀ :: rest with
      | [x, y, z, chunk] => .ok ⟨x, y, z, chunk, .prim (.pint 5)⟩
      | _ => .error (.valueError "Invalid waypoint format. Must provide x, y, z, and chunk values.")
  | _ => .error (.unmodelled "indexing a non-list")

/-- `WaypointParam.to_json`: tagged object with the five slots. -/
def WaypointParam.to_json (w : WaypointParam) : JVal :=
  .obj [("type", .prim (.pstr "Waypoint")),
        ("value", .obj [("x", w.x), ("y", w.y), ("z", w.z),
                        ("chunk", w.chunk), ("tolerance", w.tolerance)])]

/-- `WaypointParam.from_json`: checks the type tag; an object value is
read slot-wise with tolerance defaulting to 5, anything else falls back
to `load`. -/
def WaypointParam.from_json (data : JVal) : Except PyErr WaypointParam :=
  match data with
  | .obj kvs =>
    match dictGet kvs "type" with
    | some (.prim (.pstr "Waypoint")) => do
      let value ← dictGetE kvs "value"
      match value with
      | .obj vkvs => do
        let x ← dictGetE vkvs "x"
        let y ← dictGetE vkvs "y"
        let z ← dictGetE vkvs "z"
        let chunk ← dictGetE vkvs "chunk"
        let tol := (dictGet vkvs "tolerance").getD (.prim (.pint 5))
        .ok ⟨x, y, z, chunk, tol⟩
      | _ => WaypointParam.load value
    | _ => .error (.valueError "Expected type Waypoint")
  | _ => .error (.unmodelled "from_json applied to a non-dict")

/- ----------------------------------------------------------------- -/
/- RouteParam (src/bots/core/cfg_types.py)                            -/
/- ----------------------------------------------------------------- -/

/-- `RouteParam`: an ordered, non-unique sequence of waypoints. -/
structure RouteParam where
  waypoints : List WaypointParam
deriving DecidableEq, Repr

/-- `RouteParam.reverse`: a new route with the waypoint order inverted. -/
def RouteParam.reverse (r : RouteParam) : RouteParam :=
  ⟨r.waypoints.reverse⟩

/-- `RouteParam.load`: parses every element with `WaypointParam.load`. -/
def RouteParam.load : JVal → Except PyErr RouteParam
  | .list xs => do
    let ws ← mapE WaypointParam.load xs
    .ok ⟨ws⟩
  | _ => .error (.unmodelled "iterating a non-list")

/-- `RouteParam.to_json`: tagged array of tagged waypoint objects. -/
def RouteParam.to_json (r : RouteParam) : JVal :=
  .obj [("type", .prim (.pstr "Route")),
        ("value", .list (r.waypoints.map WaypointParam.to_json))]

/-- Element decode used by `RouteParam.from_json`: a dict tagged
`Waypoint` goes through `from_json`, anything else through `load`. -/
def RouteParam.decodeElem (wp : JVal) : Except PyErr WaypointParam :=
  match wp with
  | .obj kvs =>
    match dictGet kvs "type" with
    | some (.prim (.pstr "Waypoint")) => WaypointParam.from_json wp
    | _ => WaypointParam.load wp
  | _ => WaypointParam.load wp

/-- `RouteParam.from_json`: checks the type tag, then decodes every
element, accepting tagged and untagged waypoints alike. -/
def RouteParam.from_json (data : JVal) : Except PyErr RouteParam :=
  match data with
  | .obj kvs =>
    match dictGet kvs "type" with
    | some (.prim (.pstr "Route")) => do
      let value ← dictGetE kvs "value"
      match value with
      | .list xs => do
        let ws ← mapE RouteParam.decodeElem xs
        .ok ⟨ws⟩
      | _ => .error (.unmodelled "iterating a non-list")
    | _ => .error (.valueError "Expected type Route")
  | _ => .error (.unmodelled "from_json applied to a non-dict")

/- ----------------------------------------------------------------- -/
/- Item, ItemLookup (src/core/item_db.py) and ItemParam               -/
/- ----------------------------------------------------------------- -/

/-- `Item`: the fields of the item database record used by the
configuration model. -/
structure Item where
  id : Int
  name : String
  tradeable_on_ge : Bool
  members : Bool
  noted : Bool
  noteable : Bool
  placeholder : Bool
  stackable : Bool
  equipable : Bool
  cost : Int
  lowalch : Int
  highalch : Int
deriving DecidableEq, Repr

/-- The injected item-lookup capability, modelled as the list of database
records (id keys unique in the real dict-backed cache). -/
def ItemDB := List Item

/-- `ItemLookup.get_item_by_id`. -/
def getItemById (db : ItemDB) (i : Int) : Option Item :=
  List.find? (fun it => it.id == i) db

/-- `ItemLookup.get_item_by_name`: case-insensitive via `lower()`. -/
def getItemByName (db : ItemDB) (s : String) : Option Item :=
  List.find? (fun it => it.name.toLower == s.toLower) db

/-- `ItemParam`: holds the `Item` record resolved at construction. -/
structure ItemParam where
  item : Item
deriving DecidableEq, Repr

/-- `ItemParam.from_id`: resolves by id, `ValueError` when absent. -/
def ItemParam.from_id (db : ItemDB) (i : Int) : Except PyErr ItemParam :=
  match getItemById db i with
  | some it => .ok ⟨it⟩
  | none => .error (.valueError "Item with the given ID not found in database")

/-- `ItemParam.from_name`: resolves by name, `ValueError` when absent. -/
def ItemParam.from_name (db : ItemDB) (s : String) : Except PyErr ItemParam :=
  match getItemByName db s with
  | some it => .ok ⟨it⟩
  | none => .error (.valueError "Item with the given name not found in database")

/-- `ItemParam.load`: int id, str name, or a dict with an `id` or `name`
key (id preferred); a Python bool identifier passes the `isinstance(_,
int)` test and resolves as the id 0 or 1. -/
def ItemParam.load (db : ItemDB) : JVal → Except PyErr ItemParam
  | .prim (.pint i) => ItemParam.from_id db i
  | .prim (.pbool b) => ItemParam.from_id db (if b then 1 else 0)
  | .prim (.pstr s) => ItemParam.from_name db s
  | .obj kvs =>
    match dictGet kvs "id" with
    | some (.prim (.pint i)) => ItemParam.from_id db i
    | some (.prim (.pbool b)) => ItemParam.from_id db (if b then 1 else 0)
    | some _ => .error (.valueError "Item with the given ID not found in database")
    | none =>
      match dictGet kvs "name" with
      | some (.prim (.pstr s)) => ItemParam.from_name db s
      | some _ => .error (.unmodelled "lower() of a non-string")
      | none => .error (.valueError "Item dictionary must contain id or name key")
  | _ => .error (.valueError "Item value must be an int (ID), str (name), or dict with id/name")

/-- `ItemParam.to_json`: tagged object with the descriptive fields. -/
def ItemParam.to_json (p : ItemParam) : JVal :=
  .obj [("type", .prim (.pstr "Item")),
        ("value", .obj [
          ("id", .prim (.pint p.item.id)),
          ("name", .prim (.pstr p.item.name)),
          ("stackable", .prim (.pbool p.item.stackable)),
          ("equipable", .prim (.pbool p.item.equipable)),
          ("tradeable_on_ge", .prim (.pbool p.item.tradeable_on_ge)),
          ("members", .prim (.pbool p.item.members)),
          ("cost", .prim (.pint p.item.cost)),
          ("highalch", .prim (.pint p.item.highalch)),
          ("lowalch", .prim (.pint p.item.lowalch))])]

/-- `ItemParam.from_json`: checks the type tag; an object value resolves
by `id` when present, else by `name`; other values fall back to `load`. -/
def ItemParam.from_json (db : ItemDB) (data : JVal) : Except PyErr ItemParam :=
  match data with
  | .obj kvs =>
    match dictGet kvs "type" with
    | some (.prim (.pstr "Item")) => do
      let value ← dictGetE kvs "value"
      match value with
      | .obj vkvs =>
        match dictGet vkvs "id" with
        | some (.prim (.pint i)) => ItemParam.from_id db i
        | some (.prim (.pbool b)) => ItemParam.from_id db (if b then 1 else 0)
        | some _ => .error (.valueError "Item with the given ID not found in database")
        | none =>
          match dictGet vkvs "name" with
          | some (.prim (.pstr s)) => ItemParam.from_name db s
          | some _ => .error (.unmodelled "lower() of a non-string")
          | none => .error (.valueError "Item JSON value must contain id or name")
      | _ => ItemParam.load db value
    | _ => .error (.valueError "Expected type Item")
  | _ => .error (.unmodelled "from_json applied to a non-dict")

/-- The operand shapes `ItemParam.__eq__` distinguishes. -/
inductive ItemOperand where
  | itemP (p : ItemParam)
  | intV (n : Int)
  | strV (s : String)
  | otherV
deriving DecidableEq, Repr

/-- `ItemParam.__eq__`: by resolved id against another reference, by id
against a raw int, case-insensitively by name against a raw string, and
false against anything else. -/
def ItemParam.eqPy (a : ItemParam) : ItemOperand → Bool
  | .itemP b => a.item.id == b.item.id
  | .intV n => a.item.id == n
  | .strV s => a.item.name.toLower == s.toLower
  | .otherV => false

/- ----------------------------------------------------------------- -/
/- Boolean/String/Int/Float/StringList/RGBList params                  -/
/- ----------------------------------------------------------------- -/

/-- `BooleanParam`: wrapper whose constructor applies `bool()`. -/
structure BooleanParam where
  value : Bool
deriving DecidableEq, Repr

/-- `BooleanParam.load`: a bool verbatim; a string via the recognized
true-words (case-insensitive); an int by non-zeroness; anything else a
`ValueError`. -/
def BooleanParam.load : JVal → Except PyErr BooleanParam
  | .prim (.pbool b) => .ok ⟨b⟩
  | .prim (.pstr s) =>
    .ok ⟨s.toLower == "true" || s.toLower == "1" || s.toLower == "yes" || s.toLower == "on"⟩
  | .prim (.pint n) => .ok ⟨n != 0⟩
  | _ => .error (.valueError "Boolean value must be a bool, str, or int")

/-- `BooleanParam.to_json`. -/
def BooleanParam.to_json (p : BooleanParam) : JVal :=
  .obj [("type", .prim (.pstr "Boolean")), ("value", .prim (.pbool p.value))]

/-- `BooleanParam.from_json`: tag check, then the truthiness-coercing
constructor `BooleanParam(value)`. -/
def BooleanParam.from_json (data : JVal) : Except PyErr BooleanParam :=
  match data with
  | .obj kvs =>
    match dictGet kvs "type" with
    | some (.prim (.pstr "Boolean")) => do
      let value ← dictGetE kvs "value"
      .ok ⟨pyBool value⟩
    | _ => .error (.valueError "Expected type Boolean")
  | _ => .error (.unmodelled "from_json applied to a non-dict")

/-- `StringParam`: wrapper whose constructor applies `str()`. -/
structure StringParam where
  value : String
deriving DecidableEq, Repr

/-- `StringParam.load` = the coercing constructor. -/
def StringParam.load (v : JVal) : Except PyErr StringParam := do
  let s ← pyStr v
  .ok ⟨s⟩

/-- `StringParam.to_json`. -/
def StringParam.to_json (p : StringParam) : JVal :=
  .obj [("type", .prim (.pstr "String")), ("value", .prim (.pstr p.value))]

/-- `StringParam.from_json`: tag check, then the constructor. -/
def StringParam.from_json (data : JVal) : Except PyErr StringParam :=
  match data with
  | .obj kvs =>
    match dictGet kvs "type" with
    | some (.prim (.pstr "String")) => do
      let value ← dictGetE kvs "value"
      StringParam.load value
    | _ => .error (.valueError "Expected type String")
  | _ => .error (.unmodelled "from_json applied to a non-dict")

/-- `IntParam`: wrapper whose constructor applies `int()`. -/
structure IntParam where
  value : Int
deriving DecidableEq, Repr

/-- `IntParam.load` = the coercing constructor. -/
def IntParam.load (v : JVal) : Except PyErr IntParam := do
  let n ← pyInt v
  .ok ⟨n⟩

/-- `IntParam.to_json`. -/
def IntParam.to_json (p : IntParam) : JVal :=
  .obj [("type", .prim (.pstr "Int")), ("value", .prim (.pint p.value))]

/-- `IntParam.from_json`: tag check, then the constructor. -/
def IntParam.from_json (data : JVal) : Except PyErr IntParam :=
  match data with
  | .obj kvs =>
    match dictGet kvs "type" with
    | some (.prim (.pstr "Int")) => do
      let value ← dictGetE kvs "value"
      IntParam.load value
    | _ => .error (.valueError "Expected type Int")
  | _ => .error (.unmodelled "from_json applied to a non-dict")

/-- `FloatParam`: wrapper whose constructor applies `float()`. -/
structure FloatParam where
  value : Rat
deriving DecidableEq, Repr

/-- `FloatParam.load` = the coercing constructor. -/
def FloatParam.load (v : JVal) : Except PyErr FloatParam := do
  let q ← pyFloat v
  .ok ⟨q⟩

/-- `FloatParam.to_json`. -/
def FloatParam.to_json (p : FloatParam) : JVal :=
  .obj [("type", .prim (.pstr "Float")), ("value", .prim (.pfloat p.value))]

/-- `FloatParam.from_json`: tag check, then the constructor. -/
def FloatParam.from_json (data : JVal) : Except PyErr FloatParam :=
  match data with
  | .obj kvs =>
    match dictGet kvs "type" with
    | some (.prim (.pstr "Float")) => do
      let value ← dictGetE kvs "value"
      FloatParam.load value
    | _ => .error (.valueError "Expected type Float")
  | _ => .error (.unmodelled "from_json applied to a non-dict")

/-- `StringListParam`: wrapper around a list of strings; the constructor
`list(value) if value else []` maps every falsy argument to `[]`. -/
structure StringListParam where
  value : List String
deriving DecidableEq, Repr

/-- The constructor of `StringListParam` on a loose value. -/
def StringListParam.ofVal (v : JVal) : Except PyErr StringListParam :=
  if pyBool v then
    match v with
    | .list xs => do
      let ss ← mapE pyStr xs
      .ok ⟨ss⟩
    | _ => .error (.unmodelled "list() of a non-list")
  else
    .ok ⟨[]⟩

/-- `StringListParam.load` = the constructor. -/
def StringListParam.load (v : JVal) : Except PyErr StringListParam :=
  StringListParam.ofVal v

/-- `StringListParam.to_json`. -/
def StringListParam.to_json (p : StringListParam) : JVal :=
  .obj [("type", .prim (.pstr "StringList")),
        ("value", .list (p.value.map (fun s => .prim (.pstr s))))]

/-- `StringListParam.from_json`: tag check, then the constructor. -/
def StringListParam.from_json (data : JVal) : Except PyErr StringListParam :=
  match data with
  | .obj kvs =>
    match dictGet kvs "type" with
    | some (.prim (.pstr "StringList")) => do
      let value ← dictGetE kvs "value"
      StringListParam.ofVal value
    | _ => .error (.valueError "Expected type StringList")
  | _ => .error (.unmodelled "from_json applied to a non-dict")

/-- `RGBListParam`: wrapper around a list of RGB values. -/
structure RGBListParam where
  value : List RGBParam
deriving DecidableEq, Repr

/-- `RGBListParam.load`: every element through `from_tuple`. -/
def RGBListParam.load : JVal → Except PyErr RGBListParam
  | .list xs => do
    let cs ← mapE (fun x => match x with
      | JVal.list ys => RGBParam.from_tuple ys
      | _ => .error (.unmodelled "tuple() of a non-list")) xs
    .ok ⟨cs⟩
  | _ => .error (.unmodelled "iterating a non-list")

/-- `RGBListParam.to_json`: tagged array of tagged RGB objects. -/
def RGBListParam.to_json (p : RGBListParam) : JVal :=
  .obj [("type", .prim (.pstr "RGBList")),
        ("value", .list (p.value.map RGBParam.to_json))]

/-- Element decode used by `RGBListParam.from_json`: a dict tagged `RGB`
goes through `from_json`, anything else through `from_tuple`. -/
def RGBListParam.decodeElem (rgb : JVal) : Except PyErr RGBParam :=
  match rgb with
  | .obj kvs =>
    match dictGet kvs "type" with
    | some (.prim (.pstr "RGB")) => RGBParam.from_json rgb
    | _ => .error (.unmodelled "tuple() of a dict")
  | .list ys => RGBParam.from_tuple ys
  | _ => .error (.unmodelled "tuple() of a non-list")

/-- `RGBListParam.from_json`: tag check, then every element decoded,
tagged or untagged. -/
def RGBListParam.from_json (data : JVal) : Except PyErr RGBListParam :=
  match data with
  | .obj kvs =>
    match dictGet kvs "type" with
    | some (.prim (.pstr "RGBList")) => do
      let value ← dictGetE kvs "value"
      match value with
      | .list xs => do
        let cs ← mapE RGBListParam.decodeElem xs
        .ok ⟨cs⟩
      | _ => .error (.unmodelled "iterating a non-list")
    | _ => .error (.valueError "Expected type RGBList")
  | _ => .error (.unmodelled "from_json applied to a non-dict")

/- ----------------------------------------------------------------- -/
/- ScriptControl (src/core/control.py)                                -/
/- ----------------------------------------------------------------- -/

/-- The shared control state of `ScriptControl`: the terminate and pause
flags, the absolute break deadline, and the optional break descriptor. -/
structure ScriptControl where
  terminate : Bool
  pause : Bool
  break_until : Rat
  break_config : Option BreakCfgParam
deriving DecidableEq, Repr

/-- `ScriptControl.initialize_break`: sets the break deadline to
`time.time() + int(seconds)` without sleeping the caller. -/
def ScriptControl.initialize_break (s : ScriptControl) (now : Rat) (seconds : Int) : ScriptControl :=
  { s with break_until := now + (seconds : Rat) }

/-- `ScriptControl.propose_break`: with a break descriptor configured,
one `should_break` draw (`draw`), and on success one duration draw from
the descriptor range (`dur`) truncated by `int()` before being handed to
`initialize_break`; without a descriptor the call only logs. -/
def ScriptControl.propose_break (s : ScriptControl) (now draw dur : Rat) : ScriptControl :=
  match s.break_config with
  | some cfg =>
    if cfg.should_break draw then
      s.initialize_break now (pyTrunc dur)
    else s
  | none => s

/-- One read of the shared state inside the guard wrapper: `time.time()`,
`break_until`, `pause` and `terminate` are all re-read on every loop
iteration, so one observation carries all four. -/
structure GuardObs where
  now : Rat
  break_until : Rat
  pause : Bool
  terminate : Bool
deriving DecidableEq, Repr

/-- The polling condition of the guard wait loop:
`time.time() < self.break_until or self.pause`. -/
def guardWait (o : GuardObs) : Bool :=
  decide (o.now < o.break_until) || o.pause

/-- Outcome of one guarded call: the cancellation signal
(`ScriptTerminationException`) after `ticks` completed one-second
sleeps, or exactly one invocation of the wrapped operation after
`ticks` sleeps. -/
inductive GuardOutcome where
  | raised (ticks : Nat)
  | ran (ticks : Nat)
deriving DecidableEq, Repr

/-- `ScriptControl.guard`: the wrapper body evaluated against the stream
`obs` of state observations (`obs i` is what the i-th loop iteration
reads).  `fuel` bounds the modelled iterations; `none` means the wait
loop was still spinning when the fuel ran out.  The loop checks
`terminate` on every polling iteration and once more after the polling
condition clears, before the single invocation of the wrapped
operation. -/
def guardRun (obs : Nat → GuardObs) : Nat → Option GuardOutcome
  | 0 => none
  | fuel + 1 =>
    let o := obs 0
    if guardWait o then
      if o.terminate then some (.raised 0)
      else
        match guardRun (fun i => obs (i + 1)) fuel with
        | some (.raised t) => some (.raised (t + 1))
        | some (.ran t) => some (.ran (t + 1))
        | none => none
    else
      if o.terminate then some (.raised 0)
      else some (.ran 0)

/- ----------------------------------------------------------------- -/
/- BotConfigMixin (src/bots/core/config.py)                           -/
/- ----------------------------------------------------------------- -/

/-- A value of one of the twelve parameter classes (`CFG_TYPES`). -/
inductive CfgParam where
  | rgbP (p : RGBParam)
  | rangeP (p : RangeParam)
  | breakP (p : BreakCfgParam)
  | waypointP (p : WaypointParam)
  | routeP (p : RouteParam)
  | itemP (p : ItemParam)
  | booleanP (p : BooleanParam)
  | stringP (p : StringParam)
  | intP (p : IntParam)
  | floatP (p : FloatParam)
  | stringListP (p : StringListParam)
  | rgbListP (p : RGBListParam)
deriving DecidableEq, Repr

/-- The twelve parameter classes themselves (`type(x)` of a param). -/
inductive CfgClass where
  | rgbC | rangeC | breakC | waypointC | routeC | itemC
  | booleanC | stringC | intC | floatC | stringListC | rgbListC
deriving DecidableEq, Repr

/-- `type(p)` of a parameter value. -/
def CfgParam.cls : CfgParam → CfgClass
  | .rgbP _ => .rgbC
  | .rangeP _ => .rangeC
  | .breakP _ => .breakC
  | .waypointP _ => .waypointC
  | .routeP _ => .routeC
  | .itemP _ => .itemC
  | .booleanP _ => .booleanC
  | .stringP _ => .stringC
  | .intP _ => .intC
  | .floatP _ => .floatC
  | .stringListP _ => .stringListC
  | .rgbListP _ => .rgbListC

/-- `TYPE_MAP` of src/bots/core/config.py: the wire-tag registry used by
`import_config`.  Only six of the twelve classes are registered. -/
def TYPE_MAP : String → Option CfgClass
  | "RGB" => some .rgbC
  | "Range" => some .rangeC
  | "BreakCfg" => some .breakC
  | "Waypoint" => some .waypointC
  | "Route" => some .routeC
  | "Item" => some .itemC
  | _ => none

/-- `cls.from_json(v)` dispatched over the parameter classes. -/
def CfgClass.from_json (cls : CfgClass) (db : ItemDB) (v : JVal) : Except PyErr CfgParam :=
  match cls with
  | .rgbC => (RGBParam.from_json v).map .rgbP
  | .rangeC => (RangeParam.from_json v).map .rangeP
  | .breakC => (BreakCfgParam.from_json v).map .breakP
  | .waypointC => (WaypointParam.from_json v).map .waypointP
  | .routeC => (RouteParam.from_json v).map .routeP
  | .itemC => (ItemParam.from_json db v).map .itemP
  | .booleanC => (BooleanParam.from_json v).map .booleanP
  | .stringC => (StringParam.from_json v).map .stringP
  | .intC => (IntParam.from_json v).map .intP
  | .floatC => (FloatParam.from_json v).map .floatP
  | .stringListC => (StringListParam.from_json v).map .stringListP
  | .rgbListC => (RGBListParam.from_json v).map .rgbListP

/-- `cls.load(v)` dispatched over the parameter classes. -/
def CfgClass.loadV (cls : CfgClass) (db : ItemDB) (v : JVal) : Except PyErr CfgParam :=
  match cls with
  | .rgbC => (RGBParam.load v).map .rgbP
  | .rangeC => (RangeParam.load v).map .rangeP
  | .breakC => (BreakCfgParam.load v).map .breakP
  | .waypointC => (WaypointParam.load v).map .waypointP
  | .routeC => (RouteParam.load v).map .routeP
  | .itemC => (ItemParam.load db v).map .itemP
  | .booleanC => (BooleanParam.load v).map .booleanP
  | .stringC => (StringParam.load v).map .stringP
  | .intC => (IntParam.load v).map .intP
  | .floatC => (FloatParam.load v).map .floatP
  | .stringListC => (StringListParam.load v).map .stringListP
  | .rgbListC => (RGBListParam.load v).map .rgbListP

/-- `p.to_json()` dispatched over the parameter values. -/
def CfgParam.to_json : CfgParam → JVal
  | .rgbP p => p.to_json
  | .rangeP p => p.to_json
  | .breakP p => p.to_json
  | .waypointP p => p.to_json
  | .routeP p => p.to_json
  | .itemP p => p.to_json
  | .booleanP p => p.to_json
  | .stringP p => p.to_json
  | .intP p => p.to_json
  | .floatP p => p.to_json
  | .stringListP p => p.to_json
  | .rgbListP p => p.to_json

/-- One element of a Python list stored in a config field: either a
parameter instance or any other Python value, kept verbatim. -/
inductive FieldElem where
  | par (p : CfgParam)
  | raw (j : JVal)
deriving DecidableEq, Repr

/-- The current value of one config field: a primitive, a Python list,
or a parameter instance — the three shapes `import_config` and
`export_config` distinguish with `isinstance`. -/
inductive FieldVal where
  | prim (p : PyPrim)
  | plist (xs : List FieldElem)
  | par (p : CfgParam)
deriving DecidableEq, Repr

/-- A configuration container: the ordered public data fields of a
`BotConfigMixin` subclass instance (field names unique, as attribute
names are). -/
abbrev Container := List (String × FieldVal)

/-- Attribute read, first binding of the name. -/
def lookupField (c : Container) (k : String) : Option FieldVal :=
  (List.find? (fun kv => kv.1 == k) c).map (fun kv => kv.2)

/-- `setattr`: replace the value of the (unique) field of that name. -/
def setField : Container → String → FieldVal → Container
  | [], _, _ => []
  | (k', v') :: rest, k, v =>
    if k' == k then (k', v) :: rest else (k', v') :: setField rest k v

/-- The runtime type of a primitive, for the `isinstance` check of
`import_config` step 3. -/
inductive PyType where
  | tbool | tint | tfloat | tstr
deriving DecidableEq, Repr

/-- `type(p)` of a primitive. -/
def PyPrim.ptype : PyPrim → PyType
  | .pbool _ => .tbool
  | .pint _ => .tint
  | .pfloat _ => .tfloat
  | .pstr _ => .tstr

/-- Python `isinstance` on primitive types: `bool` is a subclass of
`int`, so a bool is an instance of `int` as well. -/
def pyIsinst : PyPrim → PyType → Bool
  | .pbool _, .tbool => true
  | .pbool _, .tint => true
  | .pint _, .tint => true
  | .pfloat _, .tfloat => true
  | .pstr _, .tstr => true
  | _, _ => false

/-- The test `isinstance(value, dict) and 'type' in value` of
`import_config`, returning the tag entry when it applies. -/
def taggedType : JVal → Option JVal
  | .obj kvs => dictGet kvs "type"
  | _ => none

/-- Element decode of the list branch of `import_config`: a dict with a
`type` key goes through the class `from_json`, anything else through the
class `load` — the class being that of the first current element. -/
def importListElem (db : ItemDB) (cls : CfgClass) (y : JVal) : Except PyErr CfgParam :=
  match taggedType y with
  | some _ => cls.from_json db y
  | none => cls.loadV db y

/-- The per-key decode of `BotConfigMixin.import_config`, given the
current field value.  Branch order follows the source: the tagged-object
branch runs first (consulting `TYPE_MAP`, never the current value), then
the primitive `isinstance` check, then the list branch (decoding against
the class of the first current element when that element is a parameter),
then the parameter branch (`from_json` for dicts, `load` otherwise). -/
def importValue (db : ItemDB) (cur : FieldVal) (v : JVal) : Except PyErr FieldVal :=
  match taggedType v with
  | some t =>
    match t with
    | .prim (.pstr tag) =>
      match TYPE_MAP tag with
      | some cls => do
        let p ← cls.from_json db v
        .ok (.par p)
      | none => .error (.valueError "Unknown parameter type")
    | _ => .error (.valueError "Unknown parameter type")
  | none =>
    match cur with
    | .prim p =>
      match v with
      | .prim q =>
        if pyIsinst q p.ptype then .ok (.prim q)
        else .error (.typeError "Type mismatch for key")
      | _ => .error (.typeError "Type mismatch for key")
    | .plist xs =>
      match v with
      | .list ys =>
        match xs with
        | .par p₀ :: _ => do
          let ps ← mapE (importListElem db (CfgParam.cls p₀)) ys
          .ok (.plist (ps.map FieldElem.par))
        | _ => .ok (.plist (ys.map FieldElem.raw))
      | _ => .error (.typeError "Expected list for key")
    | .par p =>
      match v with
      | .obj _ => do
        let p' ← (CfgParam.cls p).from_json db v
        .ok (.par p')
      | _ => do
        let p' ← (CfgParam.cls p).loadV db v
        .ok (.par p')

/-- `BotConfigMixin.import_config`: sequential, field-atomic per key —
each key is looked up (`UnknownField` when absent), decoded against the
current field value and assigned; the first failure aborts the whole
call, earlier assignments kept. -/
def import_config (db : ItemDB) : Container → List (String × JVal) → Except PyErr Container
  | c, [] => .ok c
  | c, (k, v) :: rest =>
    match lookupField c k with
    | none => .error (.keyError "Config key not found in bot configuration.")
    | some cur => do
      let v' ← importValue db cur v
      import_config db (setField c k v') rest

/-- The per-field serializer of `BotConfigMixin.export_config`: a
parameter exports its `to_json`, a list headed by a parameter exports
every element's `to_json` (a non-parameter element in such a list is
outside the modelled domain), and any other primitive or list is copied
verbatim. -/
def exportParElem : FieldElem → Except PyErr JVal
  | .par p => .ok p.to_json
  | .raw _ => .error (.unmodelled "param list with a non-param element")

def exportRawElem : FieldElem → Except PyErr JVal
  | .raw j => .ok j
  | .par _ => .error (.unmodelled "param exported inside a plain list")

def exportField : FieldVal → Except PyErr JVal
  | .prim p => .ok (.prim p)
  | .par p => .ok p.to_json
  | .plist xs =>
    match xs with
    | .par _ :: _ => do
      let js ← mapE exportParElem xs
      .ok (.list js)
    | _ => do
      let js ← mapE exportRawElem xs
      .ok (.list js)

/-- `BotConfigMixin.export_config` over the public data fields. -/
def export_config : Container → Except PyErr (List (String × JVal))
  | [] => .ok []
  | (k, v) :: rest => do
    let j ← exportField v
    let js ← export_config rest
    .ok ((k, j) :: js)

/-- `import_config` applied to the output of `export_config` — the
round trip of claim C3. -/
def importExport (db : ItemDB) (c : Container) : Except PyErr Container := do
  let j ← export_config c
  import_config db c j

/- ----------------------------------------------------------------- -/
/- Container lemmas                                                   -/
/- ----------------------------------------------------------------- -/

/-- The wire tag of a parameter value (`type()` static method). -/
def CfgParam.tag : CfgParam → String
  | .rgbP _ => "RGB"
  | .rangeP _ => "Range"
  | .breakP _ => "BreakCfg"
  | .waypointP _ => "Waypoint"
  | .routeP _ => "Route"
  | .itemP _ => "Item"
  | .booleanP _ => "Boolean"
  | .stringP _ => "String"
  | .intP _ => "Int"
  | .floatP _ => "Float"
  | .stringListP _ => "StringList"
  | .rgbListP _ => "RGBList"

/-- Whether a parameter class is registered in `TYPE_MAP`. -/
def CfgParam.registryOk : CfgParam → Bool
  | .rgbP _ | .rangeP _ | .breakP _ | .waypointP _ | .routeP _ | .itemP _ => true
  | _ => false

/-- Whether an item reference re-resolves (by id) to the record it
holds; vacuously true for every other parameter. -/
def paramResolves (db : ItemDB) : CfgParam → Bool
  | .itemP ip => getItemById db ip.item.id == some ip.item
  | _ => true

def FieldElem.isRaw : FieldElem → Bool
  | .raw _ => true
  | .par _ => false

/-- Uniform-list element check: a parameter of the given class whose
item reference (if any) re-resolves. -/
def elemUniform (db : ItemDB) (cls : CfgClass) : FieldElem → Bool
  | .par q => (q.cls == cls) && paramResolves db q
  | .raw _ => false

/-- The field shapes for which `import(export())` is a fixed point:
primitives, plain lists, parameters of the six `TYPE_MAP` classes, and
parameter lists of one uniform class. -/
def fieldSupported (db : ItemDB) : FieldVal → Bool
  | .prim _ => true
  | .par p => p.registryOk && paramResolves db p
  | .plist [] => true
  | .plist (e :: rest) =>
    match e with
    | .raw _ => (e :: rest).all FieldElem.isRaw
    | .par p₀ => (e :: rest).all (elemUniform db p₀.cls)

/- ----------------------------------------------------------------- -/
/- Claim theorems                                                     -/
/- ----------------------------------------------------------------- -/

/-- Whether a JSON value is a Python list. -/
def JVal.isList : JVal → Bool
  | .list _ => true
  | _ => false

/- ----------------------------------------------------------------- -/
/- Theorems                                                           -/
/- ----------------------------------------------------------------- -/

theorem hexDigitVal_hexDigitChar (n : Nat) (h : n < 16) :
    hexDigitVal (hexDigitChar n) = some n := by
  interval_cases n <;> decide

theorem hexDigitChar_ne_hash (n : Nat) (h : n < 16) :
    (hexDigitChar n == '#') = false := by
  interval_cases n <;> decide

theorem hexPairVal_split (n : Nat) (h : n < 256) :
    hexPairVal (hexDigitChar (n / 16)) (hexDigitChar (n % 16)) = some n := by
  have h1 : n / 16 < 16 := by omega
  have h2 : n % 16 < 16 := by omega
  simp only [hexPairVal, hexDigitVal_hexDigitChar _ h1, hexDigitVal_hexDigitChar _ h2]
  congr 1
  omega

theorem rgb_init_inrange (r g b : Fin 256) :
    RGBParam.init r.val g.val b.val = .ok ⟨r, g, b⟩ := by
  unfold RGBParam.init
  rw [dif_pos (by omega)]
  simp [RGBParam.mk.injEq, Fin.ext_iff]

/-- Round trip of `to_hex` through `from_hex` at the channel level. -/
theorem rgb_hex_roundtrip (c : RGBParam) :
    RGBParam.from_hex c.to_hex = .ok c := by
  have hr1 : c.r.val / 16 < 16 := by omega
  have key : (RGBParam.to_hex c).toList.dropWhile (fun c => c == '#') =
      byteHexChars c.r ++ byteHexChars c.g ++ byteHexChars c.b := by
    show List.dropWhile _ ('#' :: _) = _
    rw [List.dropWhile_cons]
    simp only [byteHexChars, List.cons_append, List.nil_append]
    rw [if_pos (by decide), List.dropWhile_cons,
      if_neg (by simp [hexDigitChar_ne_hash _ hr1])]
  unfold RGBParam.from_hex
  rw [key]
  simp only [byteHexChars, List.cons_append, List.nil_append, RGBParam.fromHexChars]
  rw [hexPairVal_split _ c.r.isLt, hexPairVal_split _ c.g.isLt, hexPairVal_split _ c.b.isLt]
  exact rgb_init_inrange c.r c.g c.b

/-- Round trip of `to_json` through `from_json` for RGB values. -/
theorem rgb_roundtrip (c : RGBParam) :
    RGBParam.from_json c.to_json = .ok c := by
  show RGBParam.from_json (.obj _) = _
  simp [RGBParam.from_json, RGBParam.to_json, dictGet, dictGetE,
    Bind.bind, Except.bind, rgb_hex_roundtrip]

/-- Round trip of `to_json` through `from_json` for Range values. -/
theorem range_roundtrip (r : RangeParam) :
    RangeParam.from_json r.to_json = .ok r := by
  simp [RangeParam.from_json, RangeParam.to_json, dictGet, dictGetE,
    Bind.bind, Except.bind, RangeParam.load, asNum]

/-- Round trip of `to_json` through `from_json` for break descriptors. -/
theorem breakcfg_roundtrip (cfg : BreakCfgParam) :
    BreakCfgParam.from_json cfg.to_json = .ok cfg := by
  simp [BreakCfgParam.from_json, BreakCfgParam.to_json, dictGet, dictGetE,
    Bind.bind, Except.bind, range_roundtrip, pyFloat]

/-- Round trip of `to_json` through `from_json` for waypoints. -/
theorem waypoint_roundtrip (w : WaypointParam) :
    WaypointParam.from_json w.to_json = .ok w := by
  simp [WaypointParam.from_json, WaypointParam.to_json, dictGet, dictGetE,
    Bind.bind, Except.bind]

theorem route_decodeElem_roundtrip (w : WaypointParam) :
    RouteParam.decodeElem w.to_json = .ok w := by
  simp [RouteParam.decodeElem, WaypointParam.to_json, dictGet]
  exact waypoint_roundtrip w

/-- Round trip of `to_json` through `from_json` for routes. -/
theorem route_roundtrip (r : RouteParam) :
    RouteParam.from_json r.to_json = .ok r := by
  have hmap : mapE RouteParam.decodeElem (r.waypoints.map WaypointParam.to_json)
      = .ok r.waypoints := by
    induction r.waypoints with
    | nil => rfl
    | cons w ws ih =>
      simp [mapE, route_decodeElem_roundtrip, Bind.bind, Except.bind, ih]
  simp [RouteParam.from_json, RouteParam.to_json, dictGet, dictGetE,
    Bind.bind, Except.bind, hmap]

/-- Round trip of `to_json` through `from_json` for item references whose
id resolves in the database to the very record they hold. -/
theorem item_roundtrip (db : ItemDB) (p : ItemParam)
    (h : getItemById db p.item.id = some p.item) :
    ItemParam.from_json db p.to_json = .ok p := by
  simp [ItemParam.from_json, ItemParam.to_json, dictGet, dictGetE,
    Bind.bind, Except.bind, ItemParam.from_id, h]

theorem boolean_roundtrip (p : BooleanParam) :
    BooleanParam.from_json p.to_json = .ok p := by
  simp [BooleanParam.from_json, BooleanParam.to_json, dictGet, dictGetE,
    Bind.bind, Except.bind, pyBool]

theorem string_roundtrip (p : StringParam) :
    StringParam.from_json p.to_json = .ok p := by
  simp [StringParam.from_json, StringParam.to_json, dictGet, dictGetE,
    Bind.bind, Except.bind, StringParam.load, pyStr]

theorem int_roundtrip (p : IntParam) :
    IntParam.from_json p.to_json = .ok p := by
  simp [IntParam.from_json, IntParam.to_json, dictGet, dictGetE,
    Bind.bind, Except.bind, IntParam.load, pyInt]

theorem float_roundtrip (p : FloatParam) :
    FloatParam.from_json p.to_json = .ok p := by
  simp [FloatParam.from_json, FloatParam.to_json, dictGet, dictGetE,
    Bind.bind, Except.bind, FloatParam.load, pyFloat]

theorem mapE_pyStr (l : List String) :
    mapE pyStr (l.map (fun s => JVal.prim (.pstr s))) = .ok l := by
  induction l with
  | nil => rfl
  | cons s ss ih => simp [mapE, pyStr, Bind.bind, Except.bind, ih]

theorem stringlist_roundtrip (p : StringListParam) :
    StringListParam.from_json p.to_json = .ok p := by
  obtain ⟨v⟩ := p
  cases v with
  | nil => rfl
  | cons s ss =>
    simp [StringListParam.from_json, StringListParam.to_json, dictGet, dictGetE,
      Bind.bind, Except.bind, StringListParam.ofVal, pyBool, mapE, pyStr, mapE_pyStr]

theorem rgblist_decodeElem_roundtrip (c : RGBParam) :
    RGBListParam.decodeElem c.to_json = .ok c := by
  simp [RGBListParam.decodeElem, RGBParam.to_json, dictGet]
  exact rgb_roundtrip c

theorem rgblist_roundtrip (p : RGBListParam) :
    RGBListParam.from_json p.to_json = .ok p := by
  have hmap : mapE RGBListParam.decodeElem (p.value.map RGBParam.to_json) = .ok p.value := by
    induction p.value with
    | nil => rfl
    | cons c cs ih => simp [mapE, rgblist_decodeElem_roundtrip, Bind.bind, Except.bind, ih]
  simp [RGBListParam.from_json, RGBListParam.to_json, dictGet, dictGetE,
    Bind.bind, Except.bind, hmap]

/-- With `terminate` already observed true on the first read, the guard
raises immediately — whether or not the wait condition holds — and the
wrapped operation is not invoked. -/
theorem guardRun_terminate (obs : Nat → GuardObs) (fuel : Nat)
    (h : (obs 0).terminate = true) :
    guardRun obs (fuel + 1) = some (.raised 0) := by
  unfold guardRun
  by_cases hw : guardWait (obs 0) <;> simp [hw, h]

/-- While the wait condition holds and `terminate` stays false the guard
keeps polling; at the first tick `k` where the condition clears (with
`terminate` still false) the wrapped operation runs exactly once, after
exactly `k` sleeps. -/
theorem guardRun_waits (obs : Nat → GuardObs) (k fuel : Nat)
    (hk : k < fuel)
    (hterm : ∀ i, i ≤ k → (obs i).terminate = false)
    (hwait : ∀ i, i < k → guardWait (obs i) = true)
    (hclear : guardWait (obs k) = false) :
    guardRun obs fuel = some (.ran k) := by
  induction k generalizing obs fuel with
  | zero =>
    obtain ⟨fuel', rfl⟩ : ∃ f, fuel = f + 1 := ⟨fuel - 1, by omega⟩
    unfold guardRun
    simp [hclear, hterm 0 (by omega)]
  | succ k ih =>
    obtain ⟨fuel', rfl⟩ : ∃ f, fuel = f + 1 := ⟨fuel - 1, by omega⟩
    have h0w : guardWait (obs 0) = true := hwait 0 (by omega)
    have h0t : (obs 0).terminate = false := hterm 0 (by omega)
    have hrec : guardRun (fun i => obs (i + 1)) fuel' = some (.ran k) := by
      apply ih
      · omega
      · exact fun i hi => hterm (i + 1) (by omega)
      · exact fun i hi => hwait (i + 1) (by omega)
      · exact hclear
    unfold guardRun
    simp [h0w, h0t, hrec]

theorem pyIsinst_self (p : PyPrim) : pyIsinst p p.ptype = true := by
  cases p <;> rfl

theorem taggedType_to_json (p : CfgParam) :
    taggedType p.to_json = some (.prim (.pstr p.tag)) := by
  cases p <;> rfl

theorem except_map_eq_ok {e : Except PyErr α} {f : α → β} {y : β}
    (h : e.map f = .ok y) : ∃ x, e = .ok x ∧ y = f x := by
  cases e with
  | ok x => exact ⟨x, rfl, by simpa [Except.map] using h.symm⟩
  | error _ => simp [Except.map] at h

/-- `from_json` invoked through a class always produces a value of that
class. -/
theorem CfgClass.from_json_cls (cls : CfgClass) (db : ItemDB) (v : JVal)
    (p : CfgParam) (h : cls.from_json db v = .ok p) : p.cls = cls := by
  cases cls <;>
    · obtain ⟨x, -, rfl⟩ := except_map_eq_ok h
      rfl

/-- `load` invoked through a class always produces a value of that
class. -/
theorem CfgClass.loadV_cls (cls : CfgClass) (db : ItemDB) (v : JVal)
    (p : CfgParam) (h : cls.loadV db v = .ok p) : p.cls = cls := by
  cases cls <;>
    · obtain ⟨x, -, rfl⟩ := except_map_eq_ok h
      rfl

/-- Round trip of `to_json` through the parameter's own class decode,
for every class, provided any held item reference re-resolves. -/
theorem cls_roundtrip (db : ItemDB) (p : CfgParam)
    (h : paramResolves db p = true) :
    (CfgParam.cls p).from_json db p.to_json = .ok p := by
  cases p with
  | rgbP q => simp [CfgClass.from_json, CfgParam.to_json, CfgParam.cls,
      rgb_roundtrip, Except.map]
  | rangeP q => simp [CfgClass.from_json, CfgParam.to_json, CfgParam.cls,
      range_roundtrip, Except.map]
  | breakP q => simp [CfgClass.from_json, CfgParam.to_json, CfgParam.cls,
      breakcfg_roundtrip, Except.map]
  | waypointP q => simp [CfgClass.from_json, CfgParam.to_json, CfgParam.cls,
      waypoint_roundtrip, Except.map]
  | routeP q => simp [CfgClass.from_json, CfgParam.to_json, CfgParam.cls,
      route_roundtrip, Except.map]
  | itemP q =>
    have hres : getItemById db q.item.id = some q.item := by
      simpa [paramResolves] using h
    simp [CfgClass.from_json, CfgParam.to_json, CfgParam.cls,
      item_roundtrip db q hres, Except.map]
  | booleanP q => simp [CfgClass.from_json, CfgParam.to_json, CfgParam.cls,
      boolean_roundtrip, Except.map]
  | stringP q => simp [CfgClass.from_json, CfgParam.to_json, CfgParam.cls,
      string_roundtrip, Except.map]
  | intP q => simp [CfgClass.from_json, CfgParam.to_json, CfgParam.cls,
      int_roundtrip, Except.map]
  | floatP q => simp [CfgClass.from_json, CfgParam.to_json, CfgParam.cls,
      float_roundtrip, Except.map]
  | stringListP q => simp [CfgClass.from_json, CfgParam.to_json, CfgParam.cls,
      stringlist_roundtrip, Except.map]
  | rgbListP q => simp [CfgClass.from_json, CfgParam.to_json, CfgParam.cls,
      rgblist_roundtrip, Except.map]

/-- For a registered parameter, `TYPE_MAP` maps its tag back to its own
class. -/
theorem TYPE_MAP_tag (p : CfgParam) (h : p.registryOk = true) :
    TYPE_MAP p.tag = some p.cls := by
  cases p <;> first | rfl | simp [CfgParam.registryOk] at h

/-- A plain list (all elements raw) exports verbatim and re-imports to
itself. -/
theorem rawList_export (xs : List FieldElem) (h : xs.all FieldElem.isRaw = true) :
    ∃ js, mapE exportRawElem xs = .ok js ∧ js.map FieldElem.raw = xs := by
  induction xs with
  | nil => exact ⟨[], rfl, rfl⟩
  | cons e rest ih =>
    simp only [List.all_cons, Bool.and_eq_true] at h
    obtain ⟨js, hjs, hback⟩ := ih h.2
    cases e with
    | raw j =>
      exact ⟨j :: js, by simp [mapE, exportRawElem, Bind.bind, Except.bind, hjs],
        by simp [hback]⟩
    | par p => simp [FieldElem.isRaw] at h

/-- A uniform parameter list exports element-wise to `to_json` and the
exported elements re-import (against the class of the head) to the very
same parameters. -/
theorem parList_export (db : ItemDB) (cls : CfgClass) (xs : List FieldElem)
    (h : xs.all (elemUniform db cls) = true) :
    ∃ ps : List CfgParam, xs = ps.map FieldElem.par ∧
      mapE exportParElem xs = .ok (ps.map CfgParam.to_json) ∧
      mapE (importListElem db cls) (ps.map CfgParam.to_json) = .ok ps := by
  induction xs with
  | nil => exact ⟨[], rfl, rfl, rfl⟩
  | cons e rest ih =>
    simp only [List.all_cons, Bool.and_eq_true] at h
    obtain ⟨ps, hshape, hexp, himp⟩ := ih h.2
    cases e with
    | raw j => simp [elemUniform] at h
    | par q =>
      have hq : (q.cls == cls) = true ∧ paramResolves db q = true := by
        simpa [elemUniform, Bool.and_eq_true] using h.1
      have hcls : q.cls = cls := by simpa using hq.1
      have hdec : importListElem db cls q.to_json = .ok q := by
        rw [← hcls]
        simp [importListElem, taggedType_to_json,
          cls_roundtrip db q hq.2]
      refine ⟨q :: ps, by simp [hshape], ?_, ?_⟩
      · simp [mapE, exportParElem, Bind.bind, Except.bind, hexp]
      · simp [mapE, Bind.bind, Except.bind, hdec, himp]

/-- Per-field round trip: a supported field exports successfully and the
exported value re-imports (against the field itself) unchanged. -/
theorem exportField_import (db : ItemDB) (v : FieldVal)
    (h : fieldSupported db v = true) :
    ∃ j, exportField v = .ok j ∧ importValue db v j = .ok v := by
  cases v with
  | prim p =>
    exact ⟨.prim p, rfl, by simp [importValue, taggedType, pyIsinst_self]⟩
  | par p =>
    simp only [fieldSupported, Bool.and_eq_true] at h
    refine ⟨p.to_json, rfl, ?_⟩
    simp [importValue, taggedType_to_json p, TYPE_MAP_tag p h.1, Bind.bind,
      Except.bind, cls_roundtrip db p h.2]
  | plist xs =>
    cases xs with
    | nil =>
      refine ⟨.list [], rfl, ?_⟩
      simp [importValue, taggedType, mapE]
    | cons e rest =>
      cases e with
      | raw j =>
        have hall : (FieldElem.raw j :: rest).all FieldElem.isRaw = true := by
          simpa [fieldSupported] using h
        obtain ⟨js, hjs, hback⟩ := rawList_export _ hall
        refine ⟨.list js, ?_, ?_⟩
        · simp [exportField, hjs, Bind.bind, Except.bind]
        · simp [importValue, taggedType, hback]
      | par p₀ =>
        have hall : (FieldElem.par p₀ :: rest).all (elemUniform db p₀.cls) = true := by
          simpa [fieldSupported] using h
        obtain ⟨ps, hshape, hexp, himp⟩ := parList_export db p₀.cls _ hall
        refine ⟨.list (ps.map CfgParam.to_json), ?_, ?_⟩
        · simp [exportField, hexp, Bind.bind, Except.bind]
        · simp [importValue, taggedType, himp, Bind.bind, Except.bind, ← hshape]

/-- Re-assigning the value a field already holds leaves the container
unchanged. -/
theorem setField_self (c : Container) (k : String) (v : FieldVal)
    (h : lookupField c k = some v) : setField c k v = c := by
  induction c with
  | nil => simp [lookupField] at h
  | cons kv rest ih =>
    obtain ⟨k', v'⟩ := kv
    by_cases hk : k' = k
    · subst hk
      simp [lookupField, List.find?] at h
      simp [setField, h]
    · have hk' : (k' == k) = false := by simpa using hk
      simp only [lookupField, List.find?, hk'] at h
      simp [setField, hk', ih h]

/-- With unique field names, membership determines the lookup result. -/
theorem lookupField_of_mem_nodup (c : Container)
    (hnd : (c.map Prod.fst).Nodup) (k : String) (v : FieldVal)
    (h : (k, v) ∈ c) : lookupField c k = some v := by
  induction c with
  | nil => simp at h
  | cons kv rest ih =>
    obtain ⟨k', v'⟩ := kv
    simp only [List.map_cons, List.nodup_cons] at hnd
    rcases List.mem_cons.mp h with heq | hmem
    · obtain ⟨rfl, rfl⟩ := Prod.mk.inj heq.symm
      simp [lookupField, List.find?]
    · have hne : k' ≠ k := by
        intro hkk
        exact hnd.1 (hkk ▸ List.mem_map_of_mem Prod.fst hmem)
      have hk' : (k' == k) = false := by simpa using hne
      simp only [lookupField, List.find?, hk']
      exact ih hnd.2 hmem

/-- An import whose every key decodes, against the field it finds, to
the value that field already holds is the identity on the container. -/
theorem import_fix (db : ItemDB) (c : Container) (js : List (String × JVal))
    (h : ∀ kj ∈ js, ∃ v, lookupField c kj.1 = some v ∧ importValue db v kj.2 = .ok v) :
    import_config db c js = .ok c := by
  induction js with
  | nil => rfl
  | cons kj rest ih =>
    obtain ⟨k, j⟩ := kj
    obtain ⟨v, hl, hi⟩ := h (k, j) (List.mem_cons_self _ _)
    simp only [import_config, hl, hi, Bind.bind, Except.bind, setField_self c k v hl]
    exact ih (fun kj hkj => h kj (List.mem_cons_of_mem _ hkj))

/-- A fully supported container exports successfully, and every exported
entry re-imports to the value its field already holds. -/
theorem export_spec (db : ItemDB) (c : Container)
    (h : ∀ kv ∈ c, fieldSupported db kv.2 = true) :
    ∃ js, export_config c = .ok js ∧
      ∀ kj ∈ js, ∃ v, (kj.1, v) ∈ c ∧ importValue db v kj.2 = .ok v := by
  induction c with
  | nil => exact ⟨[], rfl, by simp⟩
  | cons kv rest ih =>
    obtain ⟨k, v⟩ := kv
    obtain ⟨j, hj, hiv⟩ := exportField_import db v (h (k, v) (List.mem_cons_self _ _))
    obtain ⟨js, hjs, hmem⟩ := ih (fun kv hkv => h kv (List.mem_cons_of_mem _ hkv))
    refine ⟨(k, j) :: js, ?_, ?_⟩
    · simp [export_config, hj, hjs, Bind.bind, Except.bind]
    · intro kj hkj
      rcases List.mem_cons.mp hkj with heq | hmem'
      · subst heq
        exact ⟨v, List.mem_cons_self _ _, hiv⟩
      · obtain ⟨v', hv', hi'⟩ := hmem kj hmem'
        exact ⟨v', List.mem_cons_of_mem _ hv', hi'⟩

/-- `import(export())` is a fixed point on containers whose fields are
all of the supported shapes. -/
theorem importExport_fixed (db : ItemDB) (c : Container)
    (hnd : (c.map Prod.fst).Nodup)
    (h : ∀ kv ∈ c, fieldSupported db kv.2 = true) :
    importExport db c = .ok c := by
  obtain ⟨js, hjs, hmem⟩ := export_spec db c h
  have himp : import_config db c js = .ok c := by
    apply import_fix
    intro kj hkj
    obtain ⟨v, hv, hi⟩ := hmem kj hkj
    exact ⟨v, lookupField_of_mem_nodup c hnd kj.1 v hv, hi⟩
  simp [importExport, hjs, himp, Bind.bind, Except.bind]

/-- If `terminate` becomes true at tick `k` while the guard is polling,
the guard raises at tick `k` — whether the wait condition still holds
there (in-loop check) or has just cleared (post-loop check). -/
theorem guardRun_term_at (obs : Nat → GuardObs) (k fuel : Nat)
    (hk : k < fuel)
    (hwait : ∀ i, i < k → guardWait (obs i) = true)
    (hterm : ∀ i, i < k → (obs i).terminate = false)
    (ht : (obs k).terminate = true) :
    guardRun obs fuel = some (.raised k) := by
  induction k generalizing obs fuel with
  | zero =>
    obtain ⟨fuel', rfl⟩ : ∃ f, fuel = f + 1 := ⟨fuel - 1, by omega⟩
    exact guardRun_terminate obs fuel' ht
  | succ k ih =>
    obtain ⟨fuel', rfl⟩ : ∃ f, fuel = f + 1 := ⟨fuel - 1, by omega⟩
    have h0w : guardWait (obs 0) = true := hwait 0 (by omega)
    have h0t : (obs 0).terminate = false := hterm 0 (by omega)
    have hrec : guardRun (fun i => obs (i + 1)) fuel' = some (.raised k) := by
      apply ih
      · omega
      · exact fun i hi => hwait (i + 1) (by omega)
      · exact fun i hi => hterm (i + 1) (by omega)
      · exact ht
    unfold guardRun
    simp [h0w, h0t, hrec]

/-- C1: for every Value Type variant and every valid canonical value v,
decoding the wire form of v yields a value equal to v —
`V.from_json(v.to_json()) == v` — for RGB, Range, BreakCfg, Waypoint,
Route, Boolean, String, Int, Float, StringList, RGBList
unconditionally, and for Item whenever the held record re-resolves by
id in the injected lookup (which holds for every reference resolved at
construction against that lookup). -/
theorem claim_C1 (db : ItemDB) :
    (∀ c : RGBParam, RGBParam.from_json c.to_json = .ok c) ∧
    (∀ r : RangeParam, RangeParam.from_json r.to_json = .ok r) ∧
    (∀ cfg : BreakCfgParam, BreakCfgParam.from_json cfg.to_json = .ok cfg) ∧
    (∀ w : WaypointParam, WaypointParam.from_json w.to_json = .ok w) ∧
    (∀ r : RouteParam, RouteParam.from_json r.to_json = .ok r) ∧
    (∀ b : BooleanParam, BooleanParam.from_json b.to_json = .ok b) ∧
    (∀ s : StringParam, StringParam.from_json s.to_json = .ok s) ∧
    (∀ n : IntParam, IntParam.from_json n.to_json = .ok n) ∧
    (∀ q : FloatParam, FloatParam.from_json q.to_json = .ok q) ∧
    (∀ l : StringListParam, StringListParam.from_json l.to_json = .ok l) ∧
    (∀ l : RGBListParam, RGBListParam.from_json l.to_json = .ok l) ∧
    (∀ p : ItemParam, getItemById db p.item.id = some p.item →
      ItemParam.from_json db p.to_json = .ok p) :=
  ⟨rgb_roundtrip, range_roundtrip,
   breakcfg_roundtrip, waypoint_roundtrip,
   route_roundtrip, boolean_roundtrip,
   string_roundtrip, int_roundtrip,
   float_roundtrip, stringlist_roundtrip,
   rgblist_roundtrip, item_roundtrip db⟩

/-- Witness for C1 at a concrete database and item reference. -/
theorem claim_C1_witness :
    ItemParam.from_json [⟨995, "Coins", false, false, false, false, false, true, false, 1, 0, 0⟩]
      (ItemParam.to_json ⟨⟨995, "Coins", false, false, false, false, false, true, false, 1, 0, 0⟩⟩) =
      .ok ⟨⟨995, "Coins", false, false, false, false, false, true, false, 1, 0, 0⟩⟩ :=
  (claim_C1 [⟨995, "Coins", false, false, false, false, false, true, false, 1, 0, 0⟩]).2.2.2.2.2.2.2.2.2.2.2
    ⟨⟨995, "Coins", false, false, false, false, false, true, false, 1, 0, 0⟩⟩ (by decide)

/-- C2: the guard raises the cancellation signal without invoking the
wrapped operation when `terminate` is observed true — at entry (first
conjunct), at any tick `k` during a pause/break polling window (second
conjunct, the in-loop re-check, which also covers the once-more check
after the window clears since the raise at tick `k` happens whether or
not the wait condition still holds there); and with `pause` true and
`terminate` false throughout, the wrapped operation does not run until
the tick at which `pause` is back to false (the break window being
over), at which point it runs, exactly once (third conjunct). -/
theorem claim_C2 :
    (∀ (obs : Nat → GuardObs) (fuel : Nat), (obs 0).terminate = true →
      guardRun obs (fuel + 1) = some (.raised 0)) ∧
    (∀ (obs : Nat → GuardObs) (k fuel : Nat), k < fuel →
      (∀ i, i < k → guardWait (obs i) = true) →
      (∀ i, i < k → (obs i).terminate = false) →
      (obs k).terminate = true →
      guardRun obs fuel = some (.raised k)) ∧
    (∀ (obs : Nat → GuardObs) (k fuel : Nat), k < fuel →
      (∀ i, i ≤ k → (obs i).terminate = false) →
      (∀ i, i ≤ k → (obs i).break_until ≤ (obs i).now) →
      (∀ i, i < k → (obs i).pause = true) →
      (obs k).pause = false →
      guardRun obs fuel = some (.ran k)) := by
  refine ⟨guardRun_terminate, guardRun_term_at, ?_⟩
  intro obs k fuel hk hterm hbreak hpause hclear
  apply guardRun_waits obs k fuel hk hterm
  · intro i hi
    have hnb : decide ((obs i).now < (obs i).break_until) = false := by
      simpa using not_lt.mpr (hbreak i (by omega))
    simp [guardWait, hnb, hpause i hi]
  · have hnb : decide ((obs k).now < (obs k).break_until) = false := by
      simpa using not_lt.mpr (hbreak k (by omega))
    simp [guardWait, hnb, hclear]

/-- Witness for C2: a state with terminate set raises at once; a state
paused for two ticks runs the operation exactly once at tick 2. -/
theorem claim_C2_witness :
    guardRun (fun _ => ⟨0, 0, false, true⟩) 1 = some (.raised 0) ∧
    guardRun (fun i => ⟨0, 0, decide (i < 2), false⟩) 3 = some (.ran 2) :=
  ⟨claim_C2.1 (fun _ => ⟨0, 0, false, true⟩) 0 rfl,
   claim_C2.2.2 (fun i => ⟨0, 0, decide (i < 2), false⟩) 2 3 (by omega)
     (fun i _ => rfl) (fun i _ => le_refl 0)
     (fun i hi => by simpa using hi) (by simp)⟩

/-- C3 counterexample: a container whose single field holds a
`BooleanParam` (a Value Type) exports to a `Boolean`-tagged wire object,
but importing that export fails with the unknown-parameter-type error,
because `TYPE_MAP` registers only the six tags RGB, Range, BreakCfg,
Waypoint, Route, Item — so `import(export())` is not a fixed point for
every container of Value-Type fields, refuting the claim as stated. -/
theorem claim_C3_counterexample :
    export_config [("flag", FieldVal.par (.booleanP ⟨true⟩))] =
      .ok [("flag", .obj [("type", .prim (.pstr "Boolean")),
        ("value", .prim (.pbool true))])] ∧
    importExport [] [("flag", FieldVal.par (.booleanP ⟨true⟩))] =
      .error (.valueError "Unknown parameter type") := by
  constructor <;> rfl

/-- C3 (amended): `import(export())` is a fixed point — every field
keeps its value — for every container whose fields are primitives,
plain lists, single Value-Type instances of the six `TYPE_MAP`-registered
variants (with any Item reference re-resolving by id), or uniform lists
of Value-Type instances; a single Value-Type field of one of the other
six wrapper variants (Boolean, String, Int, Float, StringList, RGBList)
instead makes the import fail with the unknown-parameter-type error. -/
theorem claim_C3 (db : ItemDB) (c : Container)
    (hnd : (c.map Prod.fst).Nodup)
    (hsup : ∀ kv ∈ c, fieldSupported db kv.2 = true) :
    importExport db c = .ok c :=
  importExport_fixed db c hnd hsup

/-- Witness for C3 on a container with one field of each primitive
kind, RGB, Range, BreakCfg, a Waypoint, a nested Route, a resolvable
Item, a uniform RGB parameter list and a plain list. -/
theorem claim_C3_witness :
    importExport [⟨995, "Coins", false, false, false, false, false, true, false, 1, 0, 0⟩]
      [("bank_tile", .par (.rgbP ⟨0, 255, 0⟩)),
       ("ore_name", .prim (.pstr "Iron ore")),
       ("coal_per_bar", .prim (.pint 2)),
       ("enabled", .prim (.pbool true)),
       ("success_rate", .prim (.pfloat (17/20))),
       ("mine_delay", .par (.rangeP ⟨1/5, 1/2⟩)),
       ("break_cfg", .par (.breakP ⟨⟨15, 45⟩, 1/100⟩)),
       ("start_point", .par (.waypointP ⟨.prim (.pint 3253), .prim (.pint 3424),
          .prim (.pint 0), .prim (.pint 831916), .prim (.pint 5)⟩)),
       ("mining_route", .par (.routeP ⟨[⟨.prim (.pint 1), .prim (.pint 2),
          .prim (.pint 0), .prim (.pint 7), .prim (.pint 5)⟩]⟩)),
       ("target_item", .par (.itemP ⟨⟨995, "Coins", false, false, false, false, false, true, false, 1, 0, 0⟩⟩)),
       ("ore_options", .plist [.par (.rgbP ⟨255, 0, 100⟩), .par (.rgbP ⟨255, 0, 150⟩)]),
       ("plain_list", .plist [.raw (.prim (.pint 1)), .raw (.prim (.pstr "x"))])] =
    .ok [("bank_tile", .par (.rgbP ⟨0, 255, 0⟩)),
       ("ore_name", .prim (.pstr "Iron ore")),
       ("coal_per_bar", .prim (.pint 2)),
       ("enabled", .prim (.pbool true)),
       ("success_rate", .prim (.pfloat (17/20))),
       ("mine_delay", .par (.rangeP ⟨1/5, 1/2⟩)),
       ("break_cfg", .par (.breakP ⟨⟨15, 45⟩, 1/100⟩)),
       ("start_point", .par (.waypointP ⟨.prim (.pint 3253), .prim (.pint 3424),
          .prim (.pint 0), .prim (.pint 831916), .prim (.pint 5)⟩)),
       ("mining_route", .par (.routeP ⟨[⟨.prim (.pint 1), .prim (.pint 2),
          .prim (.pint 0), .prim (.pint 7), .prim (.pint 5)⟩]⟩)),
       ("target_item", .par (.itemP ⟨⟨995, "Coins", false, false, false, false, false, true, false, 1, 0, 0⟩⟩)),
       ("ore_options", .plist [.par (.rgbP ⟨255, 0, 100⟩), .par (.rgbP ⟨255, 0, 150⟩)]),
       ("plain_list", .plist [.raw (.prim (.pint 1)), .raw (.prim (.pstr "x"))])] :=
  claim_C3 _ _ (by decide) (by decide)

/-- C4 counterexample: importing a `Range`-tagged wire object into a
field currently holding an RGB value succeeds and replaces the field
with a Range value — the tagged branch of `import_config` consults only
`TYPE_MAP`, never the current field — refuting the claim that a field's
variant type never changes across a successful import. -/
theorem claim_C4_counterexample :
    importValue [] (FieldVal.par (.rgbP ⟨0, 255, 0⟩))
      (.obj [("type", .prim (.pstr "Range")),
             ("value", .list [.prim (.pfloat (1/5)), .prim (.pfloat (1/2))])]) =
      .ok (.par (.rangeP ⟨1/5, 1/2⟩)) ∧
    (CfgParam.rangeP ⟨1/5, 1/2⟩).cls ≠ (CfgParam.rgbP ⟨0, 255, 0⟩).cls := by
  constructor
  · rfl
  · decide

/-- C4 (amended): a successful import preserves a Value-Type field's
variant only when the incoming value is untagged (no dict `type` key),
in which case the decode is driven by the current field's own class;
an incoming tagged wire object instead always produces a value of the
tag's registered class, whatever the current field holds — so a field
changes variant exactly when a different registered tag arrives. -/
theorem claim_C4 :
    (∀ (db : ItemDB) (p : CfgParam) (j : JVal) (fv : FieldVal),
      taggedType j = none → importValue db (.par p) j = .ok fv →
      ∃ p', fv = .par p' ∧ p'.cls = p.cls) ∧
    (∀ (db : ItemDB) (cur : FieldVal) (j : JVal) (t : JVal) (fv : FieldVal),
      taggedType j = some t → importValue db cur j = .ok fv →
      ∃ p' cls tag, t = .prim (.pstr tag) ∧ TYPE_MAP tag = some cls ∧
        fv = .par p' ∧ p'.cls = cls) := by
  constructor
  · intro db p j fv hnt himp
    rw [importValue.eq_def, hnt] at himp
    cases j with
    | obj kvs =>
      simp only [Bind.bind, Except.bind] at himp
      cases hfj : (CfgParam.cls p).from_json db (.obj kvs) with
      | error e => rw [hfj] at himp; cases himp
      | ok p' =>
        rw [hfj] at himp
        cases himp
        exact ⟨p', rfl, CfgClass.from_json_cls _ db _ p' hfj⟩
    | prim q =>
      simp only [Bind.bind, Except.bind] at himp
      cases hlv : (CfgParam.cls p).loadV db (.prim q) with
      | error e => rw [hlv] at himp; cases himp
      | ok p' =>
        rw [hlv] at himp
        cases himp
        exact ⟨p', rfl, CfgClass.loadV_cls _ db _ p' hlv⟩
    | list xs =>
      simp only [Bind.bind, Except.bind] at himp
      cases hlv : (CfgParam.cls p).loadV db (.list xs) with
      | error e => rw [hlv] at himp; cases himp
      | ok p' =>
        rw [hlv] at himp
        cases himp
        exact ⟨p', rfl, CfgClass.loadV_cls _ db _ p' hlv⟩
  · intro db cur j t fv hnt himp
    rw [importValue.eq_def, hnt] at himp
    cases t with
    | prim pt =>
      cases pt with
      | pstr tag =>
        dsimp only [] at himp
        cases hm : TYPE_MAP tag with
        | none => rw [hm] at himp; cases himp
        | some cls =>
          rw [hm] at himp
          simp only [Bind.bind, Except.bind] at himp
          cases hfj : cls.from_json db j with
          | error e => rw [hfj] at himp; cases himp
          | ok p' =>
            rw [hfj] at himp
            cases himp
            exact ⟨p', cls, tag, rfl, hm, rfl, CfgClass.from_json_cls cls db j p' hfj⟩
      | pbool b => cases himp
      | pint n => cases himp
      | pfloat q => cases himp
    | list xs => cases himp
    | obj kvs => cases himp

/-- Witness for C4: untagged loose input (a hex string) into an RGB
field yields again an RGB value. -/
theorem claim_C4_witness :
    ∃ p', (FieldVal.par (CfgParam.rgbP ⟨255, 0, 0⟩)) = .par p' ∧
      p'.cls = (CfgParam.rgbP ⟨0, 255, 0⟩).cls :=
  claim_C4.1 [] (.rgbP ⟨0, 255, 0⟩) (.prim (.pstr "#FF0000"))
    (.par (.rgbP ⟨255, 0, 0⟩)) rfl rfl

/-- C5 counterexample: importing the boolean `True` into a field whose
current value is the int 3 succeeds (and stores the boolean), because
Python's `isinstance(True, int)` holds — bool is a subclass of int — so
the claim that a boolean into an int-typed field fails with
`TypeMismatch` is refuted. -/
theorem claim_C5_counterexample :
    importValue [] (FieldVal.prim (.pint 3)) (.prim (.pbool true)) =
      .ok (.prim (.pbool true)) := rfl

/-- C5 (amended): for a primitive-typed field and an untagged incoming
value, the import of that key succeeds exactly when the incoming value
is a primitive whose runtime type is the current type or a Python
subtype of it — a bool into an int field succeeds (bool subclasses
int) while an int into a float field still fails; on success the
incoming primitive is stored verbatim, and on mismatch the key fails
with the `TypeMismatch` error (aborting the import, the field keeping
its value). -/
theorem claim_C5 (db : ItemDB) (p : PyPrim) (j : JVal)
    (hnt : taggedType j = none) :
    ((∃ fv, importValue db (.prim p) j = .ok fv) ↔
      (∃ q, j = .prim q ∧ pyIsinst q p.ptype = true)) ∧
    (∀ q, j = .prim q → pyIsinst q p.ptype = true →
      importValue db (.prim p) j = .ok (.prim q)) ∧
    (∀ q, j = .prim q → pyIsinst q p.ptype = false →
      importValue db (.prim p) j = .error (.typeError "Type mismatch for key")) := by
  refine ⟨⟨?_, ?_⟩, ?_, ?_⟩
  · rintro ⟨fv, hfv⟩
    rw [importValue.eq_def, hnt] at hfv
    cases j with
    | prim q =>
      by_cases hin : pyIsinst q p.ptype = true
      · exact ⟨q, rfl, hin⟩
      · simp only [hin] at hfv
        cases hfv
    | list xs => cases hfv
    | obj kvs => cases hfv
  · rintro ⟨q, rfl, hin⟩
    exact ⟨.prim q, by rw [importValue.eq_def, hnt]; simp [hin]⟩
  · rintro q rfl hin
    rw [importValue.eq_def, hnt]
    simp [hin]
  · rintro q rfl hin
    rw [importValue.eq_def, hnt]
    simp [hin]

/-- Witness for C5: an int into an int field succeeds verbatim. -/
theorem claim_C5_witness :
    importValue [] (FieldVal.prim (.pint 3)) (.prim (.pint 5)) =
      .ok (.prim (.pint 5)) :=
  (claim_C5 [] (.pint 3) (.prim (.pint 5)) rfl).2.1 (.pint 5) rfl rfl

/-- C6: `should_break()` compares one uniform draw from [0,1) against
the raw stored chance, so with the draw in [0,1) every call returns
true when the chance is at least 1 and false when the chance is at most
0 — hence any number of consecutive draws with chance 1.0 are all true
and with chance 0.0 all false. -/
theorem claim_C6 (cfg : BreakCfgParam) (draw : Rat)
    (h0 : 0 ≤ draw) (h1 : draw < 1) :
    (1 ≤ cfg.break_chance → cfg.should_break draw = true) ∧
    (cfg.break_chance ≤ 0 → cfg.should_break draw = false) := by
  constructor
  · intro hc
    simpa [BreakCfgParam.should_break] using lt_of_lt_of_le h1 hc
  · intro hc
    simp only [BreakCfgParam.should_break, decide_eq_false_iff_not, not_lt]
    exact hc.trans h0

/-- Witness for C6 at chance 1 and chance 0 with the draw 1/2. -/
theorem claim_C6_witness :
    BreakCfgParam.should_break ⟨⟨1, 2⟩, 1⟩ (1/2) = true ∧
    BreakCfgParam.should_break ⟨⟨1, 2⟩, 0⟩ (1/2) = false :=
  ⟨(claim_C6 ⟨⟨1, 2⟩, 1⟩ (1/2) (by norm_num) (by norm_num)).1 (by norm_num),
   (claim_C6 ⟨⟨1, 2⟩, 0⟩ (1/2) (by norm_num) (by norm_num)).2 (by norm_num)⟩

/-- C7 counterexample: with a configured descriptor of duration range
[1/5, 1/2] and chance 1, a triggering draw of 3/10 (inside the range)
sets `break_until` to `now` (= 100) rather than `now + 3/10`: the drawn
duration is truncated by `int()` before being added, so `break_until`
is not now plus the drawn duration, refuting the claim as stated. -/
theorem claim_C7_counterexample :
    (ScriptControl.propose_break ⟨false, false, 0, some ⟨⟨1/5, 1/2⟩, 1⟩⟩ 100 0 (3/10)).break_until = 100 ∧
    ((1:Rat)/5 ≤ 3/10 ∧ (3/10:Rat) ≤ 1/2) ∧ (100:Rat) + 3/10 ≠ 100 := by
  refine ⟨?_, ⟨by norm_num, by norm_num⟩, by norm_num⟩
  simp [ScriptControl.propose_break, ScriptControl.initialize_break,
    BreakCfgParam.should_break, pyTrunc]
  norm_num

/-- C7 (amended): when a break descriptor is configured and its
`should_break` draw triggers, `propose_break` sets `break_until` to now
plus the `int()`-truncation of the duration drawn from the descriptor's
range, touching nothing else of the shared state and without sleeping
the caller (the model returns the updated state immediately); when the
draw does not trigger nothing changes; and when no break descriptor is
configured the call is a no-op on the shared state. -/
theorem claim_C7 (s : ScriptControl) (now draw dur : Rat) :
    (∀ cfg, s.break_config = some cfg → cfg.should_break draw = true →
      s.propose_break now draw dur =
        { s with break_until := now + (pyTrunc dur : Int) }) ∧
    (∀ cfg, s.break_config = some cfg → cfg.should_break draw = false →
      s.propose_break now draw dur = s) ∧
    (s.break_config = none → s.propose_break now draw dur = s) := by
  refine ⟨?_, ?_, ?_⟩
  · intro cfg hc ht
    simp [ScriptControl.propose_break, ScriptControl.initialize_break, hc, ht]
  · intro cfg hc ht
    simp [ScriptControl.propose_break, hc, ht]
  · intro hc
    simp [ScriptControl.propose_break, hc]

/-- Witness for C7: a triggering configured state, a non-triggering
one, and an unconfigured one. -/
theorem claim_C7_witness :
    ScriptControl.propose_break ⟨false, false, 0, some ⟨⟨10, 20⟩, 1⟩⟩ 100 0 15 =
      ⟨false, false, 115, some ⟨⟨10, 20⟩, 1⟩⟩ ∧
    ScriptControl.propose_break ⟨false, false, 0, some ⟨⟨10, 20⟩, 0⟩⟩ 100 0 15 =
      ⟨false, false, 0, some ⟨⟨10, 20⟩, 0⟩⟩ ∧
    ScriptControl.propose_break ⟨false, true, 7, none⟩ 100 0 15 = ⟨false, true, 7, none⟩ := by
  refine ⟨?_, ?_, ?_⟩
  · rw [(claim_C7 ⟨false, false, 0, some ⟨⟨10, 20⟩, 1⟩⟩ 100 0 15).1 ⟨⟨10, 20⟩, 1⟩ rfl rfl]
    show (⟨false, false, (100:Rat) + (pyTrunc 15 : Int), _⟩ : ScriptControl) = _
    norm_num [pyTrunc]
  · exact (claim_C7 ⟨false, false, 0, some ⟨⟨10, 20⟩, 0⟩⟩ 100 0 15).2.1 ⟨⟨10, 20⟩, 0⟩ rfl rfl
  · exact (claim_C7 ⟨false, true, 7, none⟩ 100 0 15).2.2 rfl

/-- C8: for every valid channel triple (each in [0,255], as carried by
the `RGBParam` type) `from_hex(to_hex(c)) == c`, and the constructor
rejects any channel outside [0,255] with the `ValueError` carrying the
channel-range message (the invariant is enforced at construction; the
channel type `Fin 256` of the model never relaxes it). -/
theorem claim_C8 :
    (∀ c : RGBParam, RGBParam.from_hex c.to_hex = .ok c) ∧
    (∀ r g b : Int, ¬(0 ≤ r ∧ r ≤ 255 ∧ 0 ≤ g ∧ g ≤ 255 ∧ 0 ≤ b ∧ b ≤ 255) →
      RGBParam.init r g b = .error (.valueError "RGB values must be between 0 and 255")) :=
  ⟨rgb_hex_roundtrip,
   fun r g b h => by rw [RGBParam.init, dif_neg h]⟩

/-- Witness for C8: the hex round trip at a concrete color and the
constructor rejection at channel 300. -/
theorem claim_C8_witness :
    RGBParam.from_hex (RGBParam.to_hex ⟨255, 0, 100⟩) = .ok ⟨255, 0, 100⟩ ∧
    RGBParam.init 300 0 0 = .error (.valueError "RGB values must be between 0 and 255") :=
  ⟨claim_C8.1 ⟨255, 0, 100⟩, claim_C8.2 300 0 0 (by decide)⟩

/-- C9: `ItemParam` equality is polymorphic over the operand's shape —
against another reference it holds exactly when the resolved ids are
equal, against a raw integer exactly when the id equals it, against a
raw string exactly when the resolved name matches case-insensitively,
and against any other operand type it is false. -/
theorem claim_C9 (a b : ItemParam) (n : Int) (s : String) :
    (a.eqPy (.itemP b) = true ↔ a.item.id = b.item.id) ∧
    (a.eqPy (.intV n) = true ↔ a.item.id = n) ∧
    (a.eqPy (.strV s) = true ↔ a.item.name.toLower = s.toLower) ∧
    a.eqPy .otherV = false := by
  refine ⟨?_, ?_, ?_, rfl⟩ <;> simp [ItemParam.eqPy]

/-- C10: `WaypointParam.load` reads `value[0]` before any length check,
so the empty list raises a bare `IndexError`, while an unrecognized
non-empty shape — a flat list (first element not a list) whose length
is not 4 — raises the descriptive `ValueError`. -/
theorem claim_C10 :
    WaypointParam.load (.list []) = .error .indexError ∧
    (∀ (v₀ : JVal) (rest : List JVal), v₀.isList = false →
      (v₀ :: rest).length ≠ 4 →
      WaypointParam.load (.list (v₀ :: rest)) =
        .error (.valueError "Invalid waypoint format. Must provide x, y, z, and chunk values.")) := by
  refine ⟨rfl, ?_⟩
  intro v₀ rest hnl hlen
  rcases rest with _ | ⟨a, _ | ⟨b, _ | ⟨c, _ | ⟨d, t⟩⟩⟩⟩ <;>
    cases v₀ <;> simp_all [WaypointParam.load, JVal.isList]

/-- Witness for C10: a flat singleton list (length 1, first element an
int) fails with the descriptive `ValueError`. -/
theorem claim_C10_witness :
    WaypointParam.load (.list [.prim (.pint 1)]) =
      .error (.valueError "Invalid waypoint format. Must provide x, y, z, and chunk values.") :=
  claim_C10.2 (.prim (.pint 1)) [] rfl (by decide)

end OSRS
